import Mathlib

/-!
Verification of the Elasticsearch full-text indexing adapter
(crates/store/src/backend/elastic/index.rs).

The adapter projects a mail document's classified text fragments into the
backend-facing record shape, and performs three backend operations:
index one document, remove a set of documents of one account within one
collection, and remove all documents of one account across all collections.

Modelling conventions: Rust u8/u32 identifiers become Nat (no arithmetic is
performed on them, so no wraparound can occur); Cow strings become String;
the asynchronous backend call is modelled by passing the backend as a
function from the built request to a transport result; a Rust panic
(out-of-bounds slice indexing) is modelled as the Option value none.
-/

namespace ElasticIndex

/-- JSON values, as built by the json macro in the source for the
delete-by-query bodies. Only the shapes the source builds are needed. -/
inductive Json where
  | num (n : Nat)
  | str (s : String)
  | arr (elems : List Json)
  | obj (fields : List (String × Json))

/-- Struct Header from the source: one projected header entry,
a name and a value. -/
structure Header where
  name : String
  value : String
deriving DecidableEq, Repr

/-- Struct Document from the source: the backend-facing record. Field
order and names follow the Rust struct. -/
structure Document where
  document_id : Nat
  account_id : Nat
  body : List String
  attachments : List String
  keywords : List String
  header : List Header
deriving DecidableEq, Repr

/-- Default::default() for Document: zero identifiers, all sequences empty. -/
def Document.default : Document :=
  { document_id := 0, account_id := 0, body := [], attachments := [],
    keywords := [], header := [] }

/-- Modelled from the spec: enum Field of the fts module (outside this
slice). Classification of one text fragment: Header(name), Body,
Attachment or Keyword. The generic header-name type parameter T is taken
at String; its display conversion is then the identity, matching the spec
requirement that header names are preserved verbatim. -/
inductive Field where
  | header (name : String)
  | body
  | attachment
  | keyword
deriving DecidableEq, Repr

/-- Modelled from the spec: one classified text fragment (struct Text of
the fts module), as consumed by the projection loop: a classification tag
and the text content. -/
structure TextPart where
  field : Field
  text : String
deriving DecidableEq, Repr

/-- Modelled from the spec: struct FtsDocument of the fts module, with the
fields the source reads: account and document identifiers, the collection
value, and the ordered fragment sequence. -/
structure FtsDocument where
  account_id : Nat
  document_id : Nat
  collection : Nat
  parts : List TextPart
deriving DecidableEq, Repr

/-- One iteration of the projection loop in the From impl: route the
fragment text into the field sequence selected by its classification,
appending at the end (Vec::push). Header names pass through to_string,
which is the identity on String. -/
def pushPart (document : Document) (part : TextPart) : Document :=
  match part.field with
  | .header name =>
      { document with header := document.header ++ [⟨toString name, part.text⟩] }
  | .body => { document with body := document.body ++ [part.text] }
  | .attachment =>
      { document with attachments := document.attachments ++ [part.text] }
  | .keyword => { document with keywords := document.keywords ++ [part.text] }

/-- From FtsDocument for Document (the Document Projector): start from the
default record with the given identifiers, then fold every fragment in
input order through the classification loop. Named fromFts because from is
a reserved word in Lean. -/
def Document.fromFts (value : FtsDocument) : Document :=
  value.parts.foldl pushPart
    { Document.default with
      account_id := value.account_id, document_id := value.document_id }

/-- Selector for header fragments: the header entry a fragment contributes,
if it is a header fragment. -/
def headerSel (p : TextPart) : Option Header :=
  match p.field with
  | .header name => some ⟨name, p.text⟩
  | _ => none

/-- Selector for body fragments. -/
def bodySel (p : TextPart) : Option String :=
  match p.field with
  | .body => some p.text
  | _ => none

/-- Selector for attachment fragments. -/
def attachmentSel (p : TextPart) : Option String :=
  match p.field with
  | .attachment => some p.text
  | _ => none

/-- Selector for keyword fragments. -/
def keywordSel (p : TextPart) : Option String :=
  match p.field with
  | .keyword => some p.text
  | _ => none

lemma toString_string_id (s : String) : toString s = s := rfl

lemma pushPart_account_id (d : Document) (p : TextPart) :
    (pushPart d p).account_id = d.account_id := by
  cases h : p.field <;> simp [pushPart, h]

lemma pushPart_document_id (d : Document) (p : TextPart) :
    (pushPart d p).document_id = d.document_id := by
  cases h : p.field <;> simp [pushPart, h]

lemma foldl_pushPart_account_id (l : List TextPart) (d : Document) :
    (l.foldl pushPart d).account_id = d.account_id := by
  induction l generalizing d with
  | nil => rfl
  | cons p l ih => simp [List.foldl_cons, ih, pushPart_account_id]

lemma foldl_pushPart_document_id (l : List TextPart) (d : Document) :
    (l.foldl pushPart d).document_id = d.document_id := by
  induction l generalizing d with
  | nil => rfl
  | cons p l ih => simp [List.foldl_cons, ih, pushPart_document_id]

lemma foldl_pushPart_header (l : List TextPart) (d : Document) :
    (l.foldl pushPart d).header = d.header ++ l.filterMap headerSel := by
  induction l generalizing d with
  | nil => simp
  | cons p l ih =>
      cases h : p.field <;>
        simp [List.foldl_cons, ih, pushPart, headerSel, h, List.filterMap_cons,
          toString_string_id]

lemma foldl_pushPart_body (l : List TextPart) (d : Document) :
    (l.foldl pushPart d).body = d.body ++ l.filterMap bodySel := by
  induction l generalizing d with
  | nil => simp
  | cons p l ih =>
      cases h : p.field <;>
        simp [List.foldl_cons, ih, pushPart, bodySel, h, List.filterMap_cons]

lemma foldl_pushPart_attachments (l : List TextPart) (d : Document) :
    (l.foldl pushPart d).attachments = d.attachments ++ l.filterMap attachmentSel := by
  induction l generalizing d with
  | nil => simp
  | cons p l ih =>
      cases h : p.field <;>
        simp [List.foldl_cons, ih, pushPart, attachmentSel, h, List.filterMap_cons]

lemma foldl_pushPart_keywords (l : List TextPart) (d : Document) :
    (l.foldl pushPart d).keywords = d.keywords ++ l.filterMap keywordSel := by
  induction l generalizing d with
  | nil => simp
  | cons p l ih =>
      cases h : p.field <;>
        simp [List.foldl_cons, ih, pushPart, keywordSel, h, List.filterMap_cons]

lemma fromFts_header (v : FtsDocument) :
    (Document.fromFts v).header = v.parts.filterMap headerSel := by
  simp [Document.fromFts, foldl_pushPart_header, Document.default]

lemma fromFts_body (v : FtsDocument) :
    (Document.fromFts v).body = v.parts.filterMap bodySel := by
  simp [Document.fromFts, foldl_pushPart_body, Document.default]

lemma fromFts_attachments (v : FtsDocument) :
    (Document.fromFts v).attachments = v.parts.filterMap attachmentSel := by
  simp [Document.fromFts, foldl_pushPart_attachments, Document.default]

lemma fromFts_keywords (v : FtsDocument) :
    (Document.fromFts v).keywords = v.parts.filterMap keywordSel := by
  simp [Document.fromFts, foldl_pushPart_keywords, Document.default]

/-- Modelled from the spec: the fixed collection-to-index-name lookup table
INDEX_NAMES, defined at startup in the elastic module outside this slice.
The spec names mail, contact and event as example collections; the concrete
names are irrelevant to the claims, which depend only on the table being
a fixed finite list. -/
def INDEX_NAMES : List String := ["mail", "contact", "event"]

/-- Backend HTTP-style response: a status code plus the payload the source
debug-formats into error messages. -/
structure Response where
  status_code : Nat
  body : String
deriving DecidableEq, Repr

/-- StatusCode::is_success of the backend client: a 2xx status. -/
def Response.is_success (r : Response) : Bool :=
  200 ≤ r.status_code && r.status_code < 300

/-- Debug formatting of a response, standing for the format argument
in the source error messages. The claims depend only on the message
carrying the response, not on the exact rendering. -/
def reprResponse (r : Response) : String :=
  "Response(status_code: " ++ toString r.status_code ++ ", body: " ++ r.body ++ ")"

/-- Modelled from the spec: a transport-level failure of the backend
client, carrying a description. -/
structure TransportError where
  desc : String
deriving DecidableEq, Repr

/-- The store crate error type (defined outside this slice). This slice
constructs only the InternalError variant, carrying a message string. -/
inductive Error where
  | internalError (msg : String)
deriving DecidableEq, Repr

/-- Name of the constructor of an error value: the kind of the error as a
caller can match on it. -/
def Error.kind : Error → String
  | .internalError _ => "InternalError"

/-- Modelled from the spec: the Into conversion applied by map_err to a
transport failure, producing the store error with the failure description.
The same conversion is applied by all three operations. -/
def TransportError.toError (e : TransportError) : Error :=
  .internalError e.desc

/-- Message head of an indexing failure, from the format string in
fts_index. -/
def indexFailMsg : String := "Failed to index document: "

/-- Message head of a removal failure, from the format string in
fts_remove and fts_remove_all. -/
def removalFailMsg : String := "Failed to remove document: "

/-- The response check shared by the three operations (their and_then
blocks are identical up to the message head): a transport failure converts
through Into, a success status yields Ok(()), any other status yields
InternalError with the debug-formatted response appended to the given
message head. -/
def handleResponse (failMsg : String)
    (result : Except TransportError Response) : Except Error Unit :=
  match result with
  | .error e => .error (TransportError.toError e)
  | .ok response =>
      if response.is_success then .ok ()
      else .error (.internalError (failMsg ++ reprResponse response))

/-- An index request: the target index name and the projected document
sent as the body. -/
structure IndexRequest where
  index : String
  body : Document
deriving DecidableEq, Repr

/-- A delete-by-query request: the target index names and the JSON query
body. -/
structure DeleteByQueryRequest where
  indices : List String
  body : Json

/-- Modelled from the spec: the DocumentSet abstraction of the dispatch
module, exposing enumeration of its members as a finite sequence
(the iterate method). -/
structure DocumentIdSet where
  iterate : List Nat

/-- fts_index: resolve the index name by unguarded positional lookup of
the collection value in INDEX_NAMES (none models the Rust panic on an
out-of-bounds index), project the document, send it, and check the
response. The backend is passed as the send function. -/
def fts_index (document : FtsDocument)
    (send : IndexRequest → Except TransportError Response) :
    Option (Except Error Unit) :=
  match INDEX_NAMES[document.collection]? with
  | none => none
  | some idxName =>
      some (handleResponse indexFailMsg
        (send { index := idxName, body := Document.fromFts document }))

/-- The delete-by-query body built by fts_remove: a bool query whose must
clauses are an exact match on account_id and terms membership of
document_id in the enumerated identifier list. -/
def removeQuery (account_id : Nat) (document_ids : List Nat) : Json :=
  .obj [("query", .obj [("bool", .obj [("must", .arr
    [ .obj [("match", .obj [("account_id", .num account_id)])],
      .obj [("terms", .obj [("document_id",
        .arr (document_ids.map .num))])] ])])])]

/-- The request built by fts_remove: the enumerated identifier list is
collected eagerly first, the single index for the collection is resolved
by unguarded lookup (none models the panic), and the bool query is
attached. -/
def fts_remove_request (account_id : Nat) (collection : Nat)
    (document_ids : DocumentIdSet) : Option DeleteByQueryRequest :=
  let ids := document_ids.iterate
  INDEX_NAMES[collection]?.map fun idxName =>
    { indices := [idxName], body := removeQuery account_id ids }

/-- fts_remove: build the delete-by-query request, send it, and check the
response with the removal failure message. -/
def fts_remove (account_id : Nat) (collection : Nat)
    (document_ids : DocumentIdSet)
    (send : DeleteByQueryRequest → Except TransportError Response) :
    Option (Except Error Unit) :=
  (fts_remove_request account_id collection document_ids).map fun req =>
    handleResponse removalFailMsg (send req)

/-- The delete-by-query body built by fts_remove_all: a bool query whose
single must clause is an exact match on account_id. -/
def removeAllQuery (account_id : Nat) : Json :=
  .obj [("query", .obj [("bool", .obj [("must", .arr
    [ .obj [("match", .obj [("account_id", .num account_id)])] ])])])]

/-- The request built by fts_remove_all: the whole INDEX_NAMES table as
target, with the account-only query. No lookup is involved, so the
operation is total. -/
def fts_remove_all_request (account_id : Nat) : DeleteByQueryRequest :=
  { indices := INDEX_NAMES, body := removeAllQuery account_id }

/-- fts_remove_all: send the account-wide delete-by-query and check the
response with the removal failure message. -/
def fts_remove_all (account_id : Nat)
    (send : DeleteByQueryRequest → Except TransportError Response) :
    Except Error Unit :=
  handleResponse removalFailMsg (send (fts_remove_all_request account_id))

/-- Modelled from the spec: the numeric attribute of a document record
addressed by a query field name (standard backend query semantics over the
two attributes the source queries). -/
def docFieldNat (doc : Document) (fieldName : String) : Option Nat :=
  if fieldName = "account_id" then some doc.account_id
  else if fieldName = "document_id" then some doc.document_id
  else none

/-- Modelled from the spec: standard backend semantics of the two clause
shapes the source builds. A match clause requires the named attribute to
equal the value; a terms clause requires the named attribute to be one of
the listed values (an empty list matches nothing). -/
def clauseMatches (doc : Document) : Json → Bool
  | .obj [("match", .obj [(f, .num v)])] => docFieldNat doc f == some v
  | .obj [("terms", .obj [(f, .arr vs)])] =>
      vs.any fun jv =>
        match jv with
        | .num v => docFieldNat doc f == some v
        | _ => false
  | _ => false

/-- Modelled from the spec: standard backend semantics of the query shape
the source builds, a bool query requiring every must clause to match. -/
def queryMatches (doc : Document) : Json → Bool
  | .obj [("query", .obj [("bool", .obj [("must", .arr clauses)])])] =>
      clauses.all (clauseMatches doc)
  | _ => false

lemma selector_length_sum (l : List TextPart) :
    (l.filterMap headerSel).length + (l.filterMap bodySel).length
      + (l.filterMap attachmentSel).length + (l.filterMap keywordSel).length
    = l.length := by
  induction l with
  | nil => rfl
  | cons p l ih =>
      cases h : p.field <;>
        simp [List.filterMap_cons, headerSel, bodySel, attachmentSel,
          keywordSel, h] <;> omega

lemma removeQuery_matches (doc : Document) (a : Nat) (ids : List Nat) :
    queryMatches doc (removeQuery a ids) = true
      ↔ (doc.account_id = a ∧ doc.document_id ∈ ids) := by
  simp [queryMatches, removeQuery, clauseMatches, docFieldNat, List.any_map,
    List.any_eq_true]

lemma removeAllQuery_matches (doc : Document) (a : Nat) :
    queryMatches doc (removeAllQuery a) = true ↔ doc.account_id = a := by
  simp [queryMatches, removeAllQuery, clauseMatches, docFieldNat]

lemma msg_heads_distinct (s : String) :
    indexFailMsg ++ s ≠ removalFailMsg ++ s := by
  intro h
  have h3 : indexFailMsg.data ++ s.data = removalFailMsg.data ++ s.data :=
    congrArg String.data h
  exact absurd (List.append_cancel_right h3) (by decide)

/-- C1: for every account_id, document_id and fragment sequence, the
projection is total (it is a Lean function) and carries the given
identifiers; with the empty fragment sequence all four field sequences of
the result are empty. -/
theorem projection_identifiers_total (a d c : Nat) (parts : List TextPart) :
    (Document.fromFts ⟨a, d, c, parts⟩).account_id = a
    ∧ (Document.fromFts ⟨a, d, c, parts⟩).document_id = d
    ∧ (Document.fromFts ⟨a, d, c, []⟩).body = []
    ∧ (Document.fromFts ⟨a, d, c, []⟩).attachments = []
    ∧ (Document.fromFts ⟨a, d, c, []⟩).keywords = []
    ∧ (Document.fromFts ⟨a, d, c, []⟩).header = [] := by
  refine ⟨?_, ?_, rfl, rfl, rfl, rfl⟩
  · exact foldl_pushPart_account_id parts _
  · exact foldl_pushPart_document_id parts _

/-- C2: the projection places each fragment into exactly one of the four
field sequences, preserving count: the number of input fragments equals
the sum of the four result sequence lengths. -/
theorem projection_count_preserved (a d c : Nat) (parts : List TextPart) :
    parts.length
      = (Document.fromFts ⟨a, d, c, parts⟩).header.length
        + (Document.fromFts ⟨a, d, c, parts⟩).body.length
        + (Document.fromFts ⟨a, d, c, parts⟩).attachments.length
        + (Document.fromFts ⟨a, d, c, parts⟩).keywords.length := by
  rw [fromFts_header, fromFts_body, fromFts_attachments, fromFts_keywords,
    selector_length_sum]

/-- C3: the projection routes each fragment by its classification, and
each result sequence is exactly the input-order filtering of the fragment
sequence by the corresponding selector, so order mirrors the input with no
reordering or merging; the concrete scenario with account 7, document 42
and fragments Header(Subject, Hello), Body(world), Keyword(urgent)
evaluates to the expected document. -/
theorem projection_order_routing (a d c : Nat) (parts : List TextPart) :
    (Document.fromFts ⟨a, d, c, parts⟩).header = parts.filterMap headerSel
    ∧ (Document.fromFts ⟨a, d, c, parts⟩).body = parts.filterMap bodySel
    ∧ (Document.fromFts ⟨a, d, c, parts⟩).attachments
        = parts.filterMap attachmentSel
    ∧ (Document.fromFts ⟨a, d, c, parts⟩).keywords = parts.filterMap keywordSel
    ∧ Document.fromFts ⟨7, 42, 0,
        [⟨.header "Subject", "Hello"⟩, ⟨.body, "world"⟩, ⟨.keyword, "urgent"⟩]⟩
      = { document_id := 42, account_id := 7, body := ["world"],
          attachments := [], keywords := ["urgent"],
          header := [⟨"Subject", "Hello"⟩] } :=
  ⟨fromFts_header _, fromFts_body _, fromFts_attachments _, fromFts_keywords _,
    by decide⟩

/-- C4: a header fragment contributes a header entry whose name equals the
original header name verbatim (the display conversion is the identity on
the name): appending a Header(n) fragment appends exactly the entry with
name n, and projecting a single fragment classified Header(X-Custom)
yields a header entry named X-Custom exactly. -/
theorem projection_header_verbatim (a d c : Nat) (n t : String)
    (parts : List TextPart) :
    (Document.fromFts ⟨a, d, c, parts ++ [⟨Field.header n, t⟩]⟩).header
      = (Document.fromFts ⟨a, d, c, parts⟩).header ++ [⟨n, t⟩]
    ∧ (Document.fromFts ⟨a, d, c, [⟨Field.header "X-Custom", t⟩]⟩).header
      = [⟨"X-Custom", t⟩] := by
  constructor
  · rw [fromFts_header, fromFts_header, List.filterMap_append]
    simp [headerSel]
  · rw [fromFts_header]
    simp [headerSel]

/-- C5: fts_remove enumerates the identifier set eagerly, builds a
delete-by-query against the single index named for the collection whose
bool query matches a document record precisely when its account_id equals
the given account and its document_id is a member of the enumerated list,
and a success response yields Ok(()); in particular the scenario with
account 3, the first collection and identifiers 5 and 9 succeeds. -/
theorem fts_remove_query_spec (a c : Nat) (ids : DocumentIdSet)
    (doc : Document) (resp : Response)
    (h : c < INDEX_NAMES.length) (hs : resp.is_success = true) :
    ∃ req : DeleteByQueryRequest,
      fts_remove_request a c ids = some req
      ∧ req.indices = [INDEX_NAMES[c]]
      ∧ req.body = removeQuery a ids.iterate
      ∧ (queryMatches doc req.body = true
          ↔ doc.account_id = a ∧ doc.document_id ∈ ids.iterate)
      ∧ fts_remove a c ids (fun _ => .ok resp) = some (.ok ())
      ∧ fts_remove 3 0 ⟨[5, 9]⟩ (fun _ => .ok ⟨200, ""⟩) = some (.ok ()) := by
  refine ⟨⟨[INDEX_NAMES[c]], removeQuery a ids.iterate⟩, ?_, rfl, rfl,
    removeQuery_matches doc a ids.iterate, ?_, rfl⟩
  · simp [fts_remove_request, List.getElem?_eq_getElem h]
  · simp [fts_remove, fts_remove_request, List.getElem?_eq_getElem h,
      handleResponse, hs]

/-- Witness for C5: at account 3, collection 0, identifiers 5 and 9, a
success response, the hypotheses hold and the removal succeeds. -/
theorem fts_remove_query_spec_witness :
    (0 < INDEX_NAMES.length ∧ (Response.mk 200 "").is_success = true)
    ∧ fts_remove 3 0 ⟨[5, 9]⟩ (fun _ => .ok ⟨200, ""⟩) = some (.ok ()) :=
  ⟨⟨by decide, by decide⟩,
    (fts_remove_query_spec 3 0 ⟨[5, 9]⟩ Document.default ⟨200, ""⟩
      (by decide) (by decide)).elim fun _ hreq => hreq.2.2.2.2.2⟩

/-- C6: fts_remove_all targets every index name of the fixed table in one
delete-by-query whose bool query matches a document record precisely when
its account_id equals the given account (no document_id clause), with the
same response semantics as fts_remove: Ok(()) on a success status, the
removal error carrying the formatted response otherwise, and the converted
transport error on a transport failure. -/
theorem fts_remove_all_spec (a : Nat) (doc : Document) (resp : Response)
    (te : TransportError) :
    (fts_remove_all_request a).indices = INDEX_NAMES
    ∧ (fts_remove_all_request a).body = removeAllQuery a
    ∧ (queryMatches doc (removeAllQuery a) = true ↔ doc.account_id = a)
    ∧ fts_remove_all a (fun _ => .ok resp)
        = (if resp.is_success then .ok ()
           else .error (.internalError (removalFailMsg ++ reprResponse resp)))
    ∧ fts_remove_all a (fun _ => .error te)
        = .error (TransportError.toError te) :=
  ⟨rfl, rfl, removeAllQuery_matches doc a,
    by simp [fts_remove_all, handleResponse], rfl⟩

/-- C7: fts_index returns Ok(()) exactly when the backend response carries
a success status; a non-success status yields the index error carrying the
formatted response, and a transport failure surfaces as the converted
transport error, with no retry (the send function is applied once in the
definition). -/
theorem fts_index_response_spec (document : FtsDocument) (resp : Response)
    (te : TransportError) (h : document.collection < INDEX_NAMES.length) :
    (fts_index document (fun _ => .ok resp) = some (.ok ())
      ↔ resp.is_success = true)
    ∧ fts_index document (fun _ => .ok resp)
        = some (if resp.is_success then .ok ()
                else .error (.internalError (indexFailMsg ++ reprResponse resp)))
    ∧ fts_index document (fun _ => .error te)
        = some (.error (TransportError.toError te)) := by
  refine ⟨?_, ?_, ?_⟩
  · simp only [fts_index, List.getElem?_eq_getElem h, handleResponse]
    cases hs : resp.is_success <;> simp [hs]
  · simp [fts_index, List.getElem?_eq_getElem h, handleResponse]
  · simp [fts_index, List.getElem?_eq_getElem h, handleResponse]

/-- Witness for C7: at a concrete document in collection 0 and a success
response, the hypothesis holds and indexing succeeds. -/
theorem fts_index_response_spec_witness :
    ((0 : Nat) < INDEX_NAMES.length ∧ (Response.mk 200 "ok").is_success = true)
    ∧ fts_index ⟨7, 42, 0, []⟩ (fun _ => .ok ⟨200, "ok"⟩) = some (.ok ()) :=
  ⟨⟨by decide, by decide⟩,
    ((fts_index_response_spec ⟨7, 42, 0, []⟩ ⟨200, "ok"⟩ ⟨"refused"⟩
      (by decide)).1).mpr (by decide)⟩

/-- C8: fts_remove with an empty identifier set still builds and issues a
request whose terms clause holds the empty list, the query matches no
document record, and a success response yields Ok(()): the empty set is
not special-cased. -/
theorem fts_remove_empty_set (a c : Nat) (doc : Document) (resp : Response)
    (h : c < INDEX_NAMES.length) (hs : resp.is_success = true) :
    ∃ req : DeleteByQueryRequest,
      fts_remove_request a c ⟨[]⟩ = some req
      ∧ req.body = removeQuery a []
      ∧ queryMatches doc req.body = false
      ∧ fts_remove a c ⟨[]⟩ (fun _ => .ok resp) = some (.ok ()) := by
  refine ⟨⟨[INDEX_NAMES[c]], removeQuery a []⟩, ?_, rfl, ?_, ?_⟩
  · simp [fts_remove_request, List.getElem?_eq_getElem h]
  · simp [queryMatches, removeQuery, clauseMatches, docFieldNat]
  · simp [fts_remove, fts_remove_request, List.getElem?_eq_getElem h,
      handleResponse, hs]

/-- Witness for C8: at account 4, collection 1, the empty set and a
success response, the hypotheses hold and the removal succeeds. -/
theorem fts_remove_empty_set_witness :
    (1 < INDEX_NAMES.length ∧ (Response.mk 204 "").is_success = true)
    ∧ fts_remove 4 1 ⟨[]⟩ (fun _ => .ok ⟨204, ""⟩) = some (.ok ()) :=
  ⟨⟨by decide, by decide⟩,
    (fts_remove_empty_set 4 1 Document.default ⟨204, ""⟩
      (by decide) (by decide)).elim fun _ hreq => hreq.2.2.2⟩

/-- Counterexample for C9: at the concrete non-success response with
status 500, a failed indexing call and a failed removal call produce
errors of the same kind (both the InternalError constructor), so the
errors are not distinguishable by kind, only by their message text. -/
theorem error_kind_counterexample :
    ∃ e1 e2 : Error,
      fts_index ⟨7, 42, 0, []⟩ (fun _ => .ok ⟨500, "boom"⟩) = some (.error e1)
      ∧ fts_remove 7 0 ⟨[5]⟩ (fun _ => .ok ⟨500, "boom"⟩) = some (.error e2)
      ∧ e1.kind = e2.kind
      ∧ e1 ≠ e2 := by
  refine ⟨.internalError (indexFailMsg ++ reprResponse ⟨500, "boom"⟩),
    .internalError (removalFailMsg ++ reprResponse ⟨500, "boom"⟩),
    rfl, rfl, rfl, by decide⟩

/-- C9 as amended: a failed indexing call and a failed removal call both
surface as the single InternalError kind carrying the formatted raw
response; the indexing failure message starts with the indexing head and
the removal failure message with the removal head, so a caller can
distinguish the two failures by the message text, not by the error kind. -/
theorem error_taxonomy_amended (document : FtsDocument) (a c a2 : Nat)
    (ids : DocumentIdSet) (resp : Response)
    (h1 : document.collection < INDEX_NAMES.length)
    (h2 : c < INDEX_NAMES.length)
    (hs : resp.is_success = false) :
    ∃ m1 m2 : String,
      fts_index document (fun _ => .ok resp) = some (.error (.internalError m1))
      ∧ fts_remove a c ids (fun _ => .ok resp)
          = some (.error (.internalError m2))
      ∧ fts_remove_all a2 (fun _ => .ok resp) = .error (.internalError m2)
      ∧ m1 = indexFailMsg ++ reprResponse resp
      ∧ m2 = removalFailMsg ++ reprResponse resp
      ∧ Error.kind (.internalError m1) = Error.kind (.internalError m2)
      ∧ m1 ≠ m2 := by
  refine ⟨indexFailMsg ++ reprResponse resp,
    removalFailMsg ++ reprResponse resp,
    ?_, ?_, ?_, rfl, rfl, rfl, msg_heads_distinct _⟩
  · simp [fts_index, List.getElem?_eq_getElem h1, handleResponse, hs]
  · simp [fts_remove, fts_remove_request, List.getElem?_eq_getElem h2,
      handleResponse, hs]
  · simp [fts_remove_all, handleResponse, hs]

/-- Witness for the amended C9: at a concrete document, accounts,
collection 0 and the status 500 response, the hypotheses hold and both
failure messages are produced as stated. -/
theorem error_taxonomy_amended_witness :
    ((0 : Nat) < INDEX_NAMES.length
      ∧ (Response.mk 500 "boom").is_success = false)
    ∧ ∃ m1 m2 : String,
        fts_index ⟨7, 42, 0, []⟩ (fun _ => .ok ⟨500, "boom"⟩)
          = some (.error (.internalError m1))
        ∧ fts_remove 7 0 ⟨[5]⟩ (fun _ => .ok ⟨500, "boom"⟩)
            = some (.error (.internalError m2))
        ∧ fts_remove_all 9 (fun _ => .ok ⟨500, "boom"⟩)
            = .error (.internalError m2)
        ∧ m1 = indexFailMsg ++ reprResponse ⟨500, "boom"⟩
        ∧ m2 = removalFailMsg ++ reprResponse ⟨500, "boom"⟩
        ∧ Error.kind (.internalError m1) = Error.kind (.internalError m2)
        ∧ m1 ≠ m2 :=
  ⟨⟨by decide, by decide⟩,
    error_taxonomy_amended ⟨7, 42, 0, []⟩ 7 0 9 ⟨[5]⟩ ⟨500, "boom"⟩
      (by decide) (by decide) (by decide)⟩

/-- C10: fts_index and fts_remove resolve the index name by unguarded
positional lookup in INDEX_NAMES, so they complete (rather than panic,
modelled as none) exactly when the collection value is strictly below the
table length; at the table length the lookup is out of bounds and the
operation evaluates to none. -/
theorem index_lookup_bounds (document : FtsDocument) (a c : Nat)
    (ids : DocumentIdSet)
    (send1 : IndexRequest → Except TransportError Response)
    (send2 : DeleteByQueryRequest → Except TransportError Response) :
    ((fts_index document send1).isSome
      ↔ document.collection < INDEX_NAMES.length)
    ∧ ((fts_remove a c ids send2).isSome ↔ c < INDEX_NAMES.length)
    ∧ fts_index ⟨7, 42, INDEX_NAMES.length, []⟩ send1 = none := by
  refine ⟨?_, ?_, ?_⟩
  · by_cases hlt : document.collection < INDEX_NAMES.length
    · simp [fts_index, List.getElem?_eq_getElem hlt, hlt]
    · simp [fts_index, List.getElem?_eq_none (Nat.le_of_not_lt hlt), hlt]
  · by_cases hlt : c < INDEX_NAMES.length
    · simp [fts_remove, fts_remove_request, List.getElem?_eq_getElem hlt, hlt]
    · simp [fts_remove, fts_remove_request,
        List.getElem?_eq_none (Nat.le_of_not_lt hlt), hlt]
  · simp [fts_index, List.getElem?_eq_none (Nat.le_refl _)]

end ElasticIndex
